import Mathlib

/-!
Shallow embedding of the bridge protocol and streaming-response engine of a
React Native ChatGPT client.

Sources embedded:
- `src/ModalWebView.tsx` — the bridge message router (`onMessage`), the
  visibility state machine (`open`, animation callbacks) and the capacity
  retry controller (`reloadAndCheckCapacityAgain`).
- `src/hooks.ts` — `useWebViewAnimation` / `animateWebView`.
- `src/api/index.ts` — the injected sandbox script (`sendGptMessage`) and the
  non-streaming `postMessage`.

The stream-record parser (`parseStreamBasedResponse` /
`parseStreamedGptResponse`, living in `src/utils`) is not part of the embedded
sources; where needed it is modelled from the specification (§4.3) and the
model is marked as such in its doc comment.

JavaScript machine integers do not occur on the embedded paths: HTTP status
codes are small naturals and all other data is strings, so `Nat`/`String` are
exact models.
-/

namespace ChatGpt

/-- Visibility status of the modal web view, `useState` in `ModalWebView.tsx`:
`'hidden' | 'animating' | 'visible'`. -/
inductive VisStatus
  | hidden
  | animating
  | visible
deriving DecidableEq, Repr

/-- Animation mode argument of `animateWebView` in `hooks.ts`: `'hide' | 'show'`. -/
inductive AnimMode
  | show
  | hide
deriving DecidableEq, Repr

/-- Parsed chat response produced by the stream parser: message text,
identifiers and a completion flag (spec §3 ChatResponse). -/
structure ChatResponse where
  message : String
  messageId : String
  conversationId : String
  isDone : Bool
deriving DecidableEq, Repr

/-- Error object surfaced to the host, embedding the `ChatGPTError` class:
an `Error` with a `message` and an optional `statusCode` field. -/
structure ChatGptError where
  message : String
  statusCode : Option Nat
deriving DecidableEq, Repr

/-- Request headers as observed by the interception hook: an association list
of exact (case-sensitive) header names to values, the embedding of the JS
object `config.headers`. -/
abbrev Headers := List (String × String)

/-- Exact-key lookup on a headers object: the embedding of `key in headers`
followed by `headers?.[key]` in JS (property access is case-sensitive). -/
def lookupHeader (hs : Headers) (key : String) : Option String :=
  match hs.find? (fun kv => kv.fst = key) with
  | some kv => some kv.snd
  | none => none

/-- Payload of a `REQUEST_INTERCEPTED_CONFIG` bridge message: the intercepted
fetch `config`, which may or may not carry a `headers` object
(`ModalWebView.tsx`: `const { headers } = payload; if (headers && ...)`). -/
structure InterceptedPayload where
  headers : Option Headers
deriving DecidableEq

/-- Payload of a `STREAM_ERROR` bridge message as the router sees it: a JS
object on which the router reads the (possibly absent) properties
`statusText` and `status`; the sandbox writer additionally uses a `message`
property (`api/index.ts` line 108). Absent properties are `none`. -/
structure StreamErrorPayload where
  status : Option Nat
  statusText : Option String
  message : Option String
deriving DecidableEq, Repr

/-- The inbound bridge message after JSON parsing, the `WebViewEvents` tagged
union of `types.ts` as consumed by `onMessage` in `ModalWebView.tsx`; `other`
stands for any unrecognized `type` string, for which none of the router's
`if` branches fires. -/
inductive WebViewEvents
  | requestInterceptedConfig (payload : InterceptedPayload)
  | rawPartialResponse (payload : String)
  | gpt3FullCapacity
  | streamError (payload : StreamErrorPayload)
  | other

/-! ## Stream parser / accumulator

`parseStreamBasedResponse` lives in `src/utils`, which is not among the
embedded sources; only its caller (`ModalWebView.tsx` line 127) is. The
component is therefore modelled from the specification. The parsing of one
individual JSON record is kept abstract as a function parameter
`parse : String → Option ChatResponse` (`none` = malformed record). -/

/-- Modelled from the spec: state of the Stream Parser/Accumulator (§3
StreamAccumulator, §4.3) for `parseStreamBasedResponse` of `src/utils`, which
is absent from the embedded sources. It holds the growing raw text buffer,
the highest record boundary already emitted, and the last successfully parsed
response snapshot. -/
structure AccState where
  buffer : String
  emitted : Nat
  lastSnapshot : Option ChatResponse
deriving DecidableEq, Repr

/-- The fresh accumulator installed at the start of a prompt. -/
def AccState.init : AccState :=
  { buffer := "", emitted := 0, lastSnapshot := none }

/-- Split a character list at every newline; always returns at least one
segment, the last being the text after the final newline. -/
def splitOnNl : List Char → List (List Char)
  | [] => [[]]
  | c :: tl =>
    match splitOnNl tl with
    | [] => [[c]]
    | h :: t => if c = '\n' then [] :: h :: t else (c :: h) :: t

/-- Modelled from the spec (§4.3): the complete newline-delimited records of a
buffer; the final segment is an incomplete trailing record retained for the
next ingest call. -/
def completeRecords (buf : String) : List String :=
  ((splitOnNl buf.data).dropLast).map (fun cs => { data := cs })

/-- Modelled from the spec (§4.3): records may be `data:`-prefixed. -/
def stripDataTag (r : String) : String :=
  if ("data: ".data).isPrefixOf r.data then { data := r.data.drop 6 } else r

/-- Modelled from the spec (§4.3): among the complete records beyond the
already-emitted boundary, later records supersede earlier ones, so only the
latest non-empty one matters. -/
def latestNewRecord (buf : String) (emitted : Nat) : Option String :=
  ((((completeRecords buf).drop emitted).map stripDataTag).filter
    (fun r => r ≠ "")).getLast?

/-- Modelled from the spec (§4.3): parse the cumulative buffer. Returns the
latest newer complete record's parse; the terminal sentinel `[DONE]` yields
the last snapshot with `done = true`; an incomplete or malformed tail yields
`none`. -/
def cumulativeParse (parse : String → Option ChatResponse) (buf : String)
    (emitted : Nat) (lastSnapshot : Option ChatResponse) : Option ChatResponse :=
  match latestNewRecord buf emitted with
  | none => none
  | some r =>
    if r = "[DONE]" then
      match lastSnapshot with
      | some snap => some { snap with isDone := true }
      | none =>
        some { message := "", messageId := "", conversationId := "", isDone := true }
    else parse r

/-- Modelled from the spec (§4.3): `ingest(text) -> ChatResponse | null`.
Appends `text` to the accumulator buffer, parses the cumulative buffer, and
on a terminal sentinel discards the accumulator for the prompt. -/
def ingest (parse : String → Option ChatResponse) (st : AccState)
    (text : String) : AccState × Option ChatResponse :=
  let buf := st.buffer ++ text
  match cumulativeParse parse buf st.emitted st.lastSnapshot with
  | some r =>
    if r.isDone then (AccState.init, some r)
    else
      ({ buffer := buf, emitted := (completeRecords buf).length,
         lastSnapshot := some r }, some r)
  | none =>
    ({ buffer := buf, emitted := st.emitted,
       lastSnapshot := st.lastSnapshot }, none)

/-! ## Bridge message router (`onMessage` in `ModalWebView.tsx`) -/

/-- Host-visible state threaded through the router: the held access token
(owned by the host component, written via `onAccessTokenChange` =
`setAccessToken`), the visibility status, and the stream accumulator. -/
structure RouterState where
  accessToken : String
  visStatus : VisStatus
  acc : AccState

/-- Host-observable effects of one routed message: the invoked callbacks and
the start of a capacity retry cycle. -/
inductive Effect
  | accessTokenChange (tok : String)
  | chunkResponse (r : ChatResponse)
  | startCapacityRetryCycle
  | streamErrorCb (e : ChatGptError)
deriving DecidableEq, Repr

/-- The error message the router builds for a `STREAM_ERROR` payload
(`ModalWebView.tsx` lines 137-140):
`payload?.statusText || ("ChatGPTResponseStreamError: " + payload?.status)`;
the empty string and an absent property are both falsy, and an absent
`status` prints as `undefined`. -/
def streamErrorMessage (p : StreamErrorPayload) : String :=
  let fallback := "ChatGPTResponseStreamError: " ++
    (match p.status with
     | some s => Nat.repr s
     | none => "undefined")
  match p.statusText with
  | some t => if t = "" then fallback else t
  | none => fallback

/-- The typed dispatch of `onMessage` (`ModalWebView.tsx` lines 111-143): one
branch per recognized `type` tag, unrecognized tags are no-ops. `parse` is
the abstract record parser of the modelled stream accumulator. -/
def dispatch (parse : String → Option ChatResponse) (st : RouterState) :
    WebViewEvents → RouterState × List Effect
  | .requestInterceptedConfig p =>
    match p.headers with
    | some hs =>
      match lookupHeader hs "Authorization" with
      | some tok =>
        if tok ≠ "" ∧ tok ≠ st.accessToken then
          ({ st with accessToken := tok }, [.accessTokenChange tok])
        else (st, [])
      | none => (st, [])
    | none => (st, [])
  | .rawPartialResponse txt =>
    match ingest parse st.acc txt with
    | (acc2, some r) => ({ st with acc := acc2 }, [.chunkResponse r])
    | (acc2, none) => ({ st with acc := acc2 }, [])
  | .gpt3FullCapacity =>
    if st.visStatus = .visible then (st, [.startCapacityRetryCycle])
    else (st, [])
  | .streamError p =>
    (st, [.streamErrorCb { message := streamErrorMessage p, statusCode := p.status }])
  | .other => (st, [])

/-- The full `onMessage` handler: parse the raw serialized event (JSON
semantics kept abstract as `parseRaw`; `none` = `JSON.parse` throws or the
shape is wrong), dispatch on success, and swallow the failure otherwise
(`try { ... } catch (e) { /- ignore -/ }`). -/
def onMessage (parseRaw : String → Option WebViewEvents)
    (parse : String → Option ChatResponse) (st : RouterState) (raw : String) :
    RouterState × List Effect :=
  match parseRaw raw with
  | none => (st, [])
  | some ev => dispatch parse st ev

/-- Run the router over a sequence of already-parsed events, concatenating the
emitted effects in order. -/
def runEvents (parse : String → Option ChatResponse) (st : RouterState) :
    List WebViewEvents → RouterState × List Effect
  | [] => (st, [])
  | ev :: rest =>
    let (st1, es1) := dispatch parse st ev
    let (st2, es2) := runEvents parse st1 rest
    (st2, es1 ++ es2)

/-! ## Injected sandbox script (`api/index.ts`, `sendGptMessage`) -/

/-- A backend HTTP response as observed inside the sandbox: the status code,
the status text, and the decoded text of each body chunk in arrival order. -/
structure HttpStreamResponse where
  status : Nat
  statusText : String
  chunks : List String

/-- A bridge message as posted by the sandbox via
`window.ReactNativeWebView.postMessage` (already JSON-encoded on the wire;
embedded here at the object level). -/
inductive BridgeMsg
  | requestInterceptedConfig (payload : InterceptedPayload)
  | rawPartialResponse (payload : String)
  | streamError (payload : StreamErrorPayload)
deriving DecidableEq

/-- The `STREAM_ERROR` payload as serialized by `sendGptMessage`
(`api/index.ts` line 108): `{status: res.status, message: res.statusText}` —
the status text is stored under the key `message`, and no `statusText`
property exists on the object. -/
def sandboxStreamErrorPayload (status : Nat) (statusText : String) :
    StreamErrorPayload :=
  { status := some status, statusText := none, message := some statusText }

/-- The header object built by `getHeaders` inside `sendGptMessage`
(`api/index.ts` lines 65-77); the bearer token is stored under the lowercase
key `authorization`. -/
def sendGptMessageHeaders (accessToken : String) : Headers :=
  [("accept", "text/event-stream"),
   ("x-openai-assistant-app-id", ""),
   ("authorization", accessToken),
   ("content-type", "application/json"),
   ("origin", "https://chat.openai.com"),
   ("referrer", "https://chat.openai.com/chat"),
   ("sec-fetch-mode", "cors"),
   ("sec-fetch-site", "same-origin"),
   ("x-requested-with", "com.chatgpt3auth")]

/-- The bridge messages `sendGptMessage` emits for a backend response
(`api/index.ts` lines 98-117): on `400 <= status < 600` it posts a single
`STREAM_ERROR` and returns; otherwise it drains the body, posting each
decoded chunk as a `RAW_PARTIAL_RESPONSE` in arrival order. (The initial
`REQUEST_INTERCEPTED_CONFIG` emitted by the patched `fetch` for the prompt
request itself is modelled separately via `sendGptMessageHeaders`.) -/
def sendGptMessageEmissions (res : HttpStreamResponse) : List BridgeMsg :=
  if 400 ≤ res.status ∧ res.status < 600 then
    [.streamError (sandboxStreamErrorPayload res.status res.statusText)]
  else
    res.chunks.map .rawPartialResponse

/-- Valid HTTP status codes are the three-digit codes 100-599 (RFC 9110
§15). -/
def isValidHttpStatus (s : Nat) : Prop := 100 ≤ s ∧ s ≤ 599

instance (s : Nat) : Decidable (isValidHttpStatus s) := by
  unfold isValidHttpStatus; infer_instance

/-! ## Non-streaming `postMessage` (`api/index.ts` lines 141-195)

`parseStreamedGptResponse` is the same `src/utils` stream parser, applied to
the whole response text at once; it is modelled as `cumulativeParse` on a
fresh accumulator. A thrown `ChatGptError` is embedded as `Except.error`. -/

/-- A backend HTTP response as observed by the non-streaming path: status,
status text, and the whole body text (`await res.text()`). -/
structure HttpTextResponse where
  status : Nat
  statusText : String
  bodyText : String

/-- The expiry message `postMessage` throws for HTTP 401/403
(`api/index.ts` line 174). -/
def clientExpiryMessage : String :=
  "ChatGPTResponseClientError: Your access token may have expired. Please login again."

/-- The non-streaming `postMessage` error/parse behaviour as a function of
the backend response (`api/index.ts` lines 171-194). `parse` is the abstract
record parser of the modelled stream parser. -/
def postMessage (parse : String → Option ChatResponse)
    (res : HttpTextResponse) : Except ChatGptError ChatResponse :=
  if 400 ≤ res.status ∧ res.status < 500 then
    .error
      { message :=
          if res.status = 403 ∨ res.status = 401 then clientExpiryMessage
          else "ChatGPTResponseClientError: " ++ Nat.repr res.status ++ " " ++
            res.statusText,
        statusCode := some res.status }
  else if 500 ≤ res.status then
    .error
      { message := "ChatGPTResponseServerError: " ++ Nat.repr res.status ++ " " ++
          res.statusText,
        statusCode := some res.status }
  else
    match cumulativeParse parse res.bodyText 0 none with
    | some r => .ok r
    | none =>
      .error { message := "ChatGPTResponseError: Unable to parse response",
               statusCode := none }

/-! ## Visibility state machine (`ModalWebView.tsx` + `hooks.ts`) -/

/-- State of the modal: the visibility status plus the target mode of the
animation in flight, if any (`Animated.timing(...).start` with its completion
callback pending). -/
structure ModalState where
  status : VisStatus
  pending : Option AnimMode
deriving DecidableEq, Repr

/-- `animateWebView(mode)` from `hooks.ts` lines 28-37: unconditionally fires
`onAnimationStart` — which sets the status to `animating`
(`ModalWebView.tsx` line 42) — and starts a timing animation towards `mode`,
replacing any animation in flight. -/
def animateWebView (mode : AnimMode) (_st : ModalState) : ModalState :=
  { status := .animating, pending := some mode }

/-- The imperative-handle `open()` of `ModalWebView.tsx` lines 47-51:
`open: () => { animateWebView('show'); }` — no guard on the current state. -/
def openModal (st : ModalState) : ModalState :=
  animateWebView .show st

/-- Completion callback of the timing animation
(`ModalWebView.tsx` lines 43-44): `onAnimationEnd: (mode) =>
setStatus(mode === 'show' ? 'visible' : 'hidden')`. -/
def onAnimationEnd (st : ModalState) : ModalState :=
  match st.pending with
  | some .show => { status := .visible, pending := none }
  | some .hide => { status := .hidden, pending := none }
  | none => st

/-! ## Capacity retry controller (`ModalWebView.tsx` lines 83-88) -/

/-- Observable actions of one capacity retry cycle. -/
inductive CapacityAction
  | reload
  | probe
deriving DecidableEq, Repr

/-- `reloadAndCheckCapacityAgain`: `await wait(2000); reload(); await
wait(3000); checkIfChatGPTIsAtFullCapacity();`. The two `await`s are
suspension points at which the visibility status may have changed;
`statusAfterFirstWait` and `statusAfterSecondWait` are the statuses current
when the function resumes there. The source reads neither: both the reload
and the probe are unconditional. -/
def reloadAndCheckCapacityAgain (statusAfterFirstWait : VisStatus)
    (statusAfterSecondWait : VisStatus) : List CapacityAction :=
  match statusAfterFirstWait, statusAfterSecondWait with
  | _, _ => [.reload, .probe]

/-! ## Test fixtures (concrete instantiations used in witnesses) -/

/-- Concrete record parser used as a fixture in witnesses: it accepts the
record `ok` (a non-terminal snapshot) and the record `okdone` (a completed
snapshot); everything else is malformed. -/
def testParse : String → Option ChatResponse := fun r =>
  if r = "ok" then
    some { message := "hello", messageId := "m1", conversationId := "c1",
           isDone := false }
  else if r = "okdone" then
    some { message := "hello!", messageId := "m1", conversationId := "c1",
           isDone := true }
  else none

/-- Concrete router state fixture: fresh session (no token held, modal
hidden, fresh accumulator). -/
def testState : RouterState :=
  { accessToken := "", visStatus := .hidden, acc := AccState.init }

/-- Whether `pat` occurs as a contiguous sublist of `s`. -/
def listInfix (pat : List Char) : List Char → Bool
  | [] => pat.isEmpty
  | c :: tl => pat.isPrefixOf (c :: tl) || listInfix pat tl

/-- Whether `pat` occurs as a substring of `s` (used to state that an error
message carries no credential-expiry wording). -/
def containsSubstr (s pat : String) : Bool :=
  listInfix pat.data s.data

/-- A `REQUEST_INTERCEPTED_CONFIG` event whose intercepted config carries the
bearer value `tok` under the exact header key `Authorization`. -/
def cfgWithAuth (tok : String) : WebViewEvents :=
  .requestInterceptedConfig { headers := some [("Authorization", tok)] }

end ChatGpt

namespace ChatGpt

/-! ## Helper lemmas -/

/-- Credential-capture step of the router on a config whose only header is
`Authorization: tok`: fires iff the value is non-empty and differs from the
held token. -/
theorem dispatch_cfgWithAuth (parse : String → Option ChatResponse)
    (st : RouterState) (tok : String) :
    dispatch parse st (cfgWithAuth tok) =
      if tok ≠ "" ∧ tok ≠ st.accessToken then
        ({ st with accessToken := tok }, [.accessTokenChange tok])
      else (st, []) := rfl

/-- When `ingest` emits nothing, the accumulator state is exactly the old one
with the chunk appended to the buffer. -/
theorem ingest_none_state (parse : String → Option ChatResponse)
    (st : AccState) (t : String) (h : (ingest parse st t).2 = none) :
    (ingest parse st t).1 =
      { buffer := st.buffer ++ t, emitted := st.emitted,
        lastSnapshot := st.lastSnapshot } := by
  cases hc : cumulativeParse parse (st.buffer ++ t) st.emitted st.lastSnapshot with
  | none => simp [ingest, hc]
  | some r =>
    exfalso
    by_cases hd : r.isDone <;> simp [ingest, hc, hd] at h

/-! ## Claim theorems -/

/-- Claim C2, counterexample: a `STREAM_ERROR` with payload
`status = 403, statusText = ""` is routed to the error callback with message
`ChatGPTResponseStreamError: 403` and status code 403 — a message carrying no
credential-expiry wording at all (contrast the codebase's own expiry message,
which does contain `expire`). -/
theorem streamError403_no_expiry_wording :
    dispatch testParse testState
        (.streamError { status := some 403, statusText := some "", message := none }) =
      (testState,
        [.streamErrorCb
          { message := "ChatGPTResponseStreamError: 403", statusCode := some 403 }]) ∧
    containsSubstr "ChatGPTResponseStreamError: 403" "expire" = false ∧
    containsSubstr clientExpiryMessage "expire" = true :=
  ⟨rfl, by decide, by decide⟩

/-- Claim C2 as amended: a `STREAM_ERROR` bridge message with payload
`status = 403, statusText = ""` yields, for every router state, a surfaced
error whose `statusCode` is 403 and whose message is the fallback
`ChatGPTResponseStreamError: 403` (the empty status text is falsy), with no
credential-expiry wording. -/
theorem streamError403_surfaced_message (parse : String → Option ChatResponse)
    (st : RouterState) :
    dispatch parse st
        (.streamError { status := some 403, statusText := some "", message := none }) =
      (st,
        [.streamErrorCb
          { message := "ChatGPTResponseStreamError: 403", statusCode := some 403 }]) ∧
    containsSubstr "ChatGPTResponseStreamError: 403" "expire" = false :=
  ⟨rfl, by decide⟩

/-- Claim C3: for every backend response whose status is a valid HTTP status
`≥ 400`, the injected `sendGptMessage` routine emits exactly one
`STREAM_ERROR` bridge message, whose payload carries the status code (key
`status`) and the status text (key `message`), and emits no
`RAW_PARTIAL_RESPONSE` messages for that response. -/
theorem sendGptMessage_error_status_single_stream_error
    (res : HttpStreamResponse) (hv : isValidHttpStatus res.status)
    (h4 : 400 ≤ res.status) :
    sendGptMessageEmissions res =
      [.streamError
        { status := some res.status, statusText := none,
          message := some res.statusText }] := by
  obtain ⟨_, h599⟩ := hv
  unfold sendGptMessageEmissions sandboxStreamErrorPayload
  rw [if_pos ⟨h4, by omega⟩]

/-- Witness for C3 at a concrete server-error response: status 500 with a
pending body chunk still yields only the one `STREAM_ERROR`. -/
theorem sendGptMessage_error_status_single_stream_error_witness :
    isValidHttpStatus 500 ∧
    sendGptMessageEmissions { status := 500, statusText := "Internal Error", chunks := ["x"] } =
      [.streamError
        { status := some 500, statusText := none, message := some "Internal Error" }] :=
  ⟨by decide,
    sendGptMessage_error_status_single_stream_error
      { status := 500, statusText := "Internal Error", chunks := ["x"] }
      (by decide) (by decide)⟩

/-- Claim C6, counterexample: an open request while the state machine is
`visible` is not a no-op — `open()` unconditionally calls
`animateWebView('show')`, which sets the status to `animating` and starts a
new show transition. -/
theorem open_while_visible_not_noop :
    openModal { status := .visible, pending := none } =
      { status := .animating, pending := some .show } ∧
    openModal { status := .visible, pending := none } ≠
      { status := .visible, pending := none } :=
  ⟨rfl, by decide⟩

/-- Claim C6 as amended: `open()` from every state (hidden, animating or
visible alike) sets the status to `animating` with a pending show transition,
and completion of that transition yields `visible`; there is no re-entrancy
guard. -/
theorem open_always_starts_show (st : ModalState) :
    openModal st = { status := .animating, pending := some .show } ∧
    onAnimationEnd (openModal st) = { status := .visible, pending := none } :=
  ⟨rfl, rfl⟩

/-- Claim C7, counterexample: a retry cycle whose two suspension points both
resume with the sandbox `hidden` still performs the reload and the probe —
leaving the visible state does not cancel the remaining steps. -/
theorem retry_cycle_not_cancelled_when_hidden :
    reloadAndCheckCapacityAgain .hidden .hidden = [.reload, .probe] ∧
    reloadAndCheckCapacityAgain .hidden .hidden ≠ ([] : List CapacityAction) :=
  ⟨rfl, by decide⟩

/-- Claim C7 as amended: visibility gates only the start of a retry cycle —
a capacity notice arriving while the status is not `visible` starts nothing —
but a cycle already started performs its reload and probe unconditionally,
whatever the visibility status at its resumption points. -/
theorem retry_cycle_unconditional_once_started (s1 s2 : VisStatus)
    (parse : String → Option ChatResponse) (st : RouterState)
    (h : st.visStatus ≠ .visible) :
    reloadAndCheckCapacityAgain s1 s2 = [.reload, .probe] ∧
    dispatch parse st .gpt3FullCapacity = (st, []) := by
  refine ⟨rfl, ?_⟩
  simp [dispatch, h]

/-- Witness for the amended C7: concrete hidden-state router ignores the
capacity notice, while a cycle resumed at hidden still reloads and probes. -/
theorem retry_cycle_unconditional_once_started_witness :
    reloadAndCheckCapacityAgain .hidden .visible = [.reload, .probe] ∧
    dispatch testParse testState .gpt3FullCapacity = (testState, []) :=
  retry_cycle_unconditional_once_started .hidden .visible testParse testState
    (by decide)

/-- Claim C8: for every non-streaming `postMessage` call whose backend
response has a 4xx status, a `ChatGptError` is thrown whose `statusCode` is
the response status; for 401 and 403 its message is the credential-expiry
message (`... may have expired. Please login again.`), and for every other
4xx it is the client-error message carrying the status and status text. -/
theorem postMessage_4xx_client_error (parse : String → Option ChatResponse)
    (res : HttpTextResponse) (h4 : 400 ≤ res.status) (h5 : res.status < 500) :
    postMessage parse res =
      .error
        { message :=
            if res.status = 403 ∨ res.status = 401 then clientExpiryMessage
            else "ChatGPTResponseClientError: " ++ Nat.repr res.status ++ " " ++
              res.statusText,
          statusCode := some res.status } ∧
    containsSubstr clientExpiryMessage "may have expired. Please login again." = true := by
  refine ⟨?_, by decide⟩
  unfold postMessage
  rw [if_pos ⟨h4, h5⟩]

/-- Witness for C8 at status 403: the thrown error is the credential-expiry
error with status code 403. -/
theorem postMessage_4xx_client_error_witness :
    postMessage testParse { status := 403, statusText := "Forbidden", bodyText := "" } =
      .error
        { message :=
            if (403 : Nat) = 403 ∨ (403 : Nat) = 401 then clientExpiryMessage
            else "ChatGPTResponseClientError: " ++ Nat.repr 403 ++ " " ++ "Forbidden",
          statusCode := some 403 } ∧
    containsSubstr clientExpiryMessage "may have expired. Please login again." = true :=
  postMessage_4xx_client_error testParse
    { status := 403, statusText := "Forbidden", bodyText := "" }
    (by decide) (by decide)

/-- Claim C9: a `STREAM_ERROR` originating from the injected `sendGptMessage`
routine carries the status text under the payload key `message` and no
`statusText` property, so the router's fallback fires: the surfaced error has
message `ChatGPTResponseStreamError: <status>` (independent of the status
text, which therefore never reaches the host) and status code `<status>`. -/
theorem sandbox_streamError_loses_status_text
    (parse : String → Option ChatResponse) (st : RouterState) (s : Nat)
    (txt : String) :
    (sandboxStreamErrorPayload s txt).statusText = none ∧
    dispatch parse st (.streamError (sandboxStreamErrorPayload s txt)) =
      (st,
        [.streamErrorCb
          { message := "ChatGPTResponseStreamError: " ++ Nat.repr s,
            statusCode := some s }]) :=
  ⟨rfl, rfl⟩

/-- Claim C5, counterexample: for the observation sequence token A, token A,
token B (A and B non-empty, A not initially held — fresh session), credential
capture invokes the token-change callback twice — on the initial capture of A
and on the A-to-B transition — not exactly once. -/
theorem token_capture_fires_twice_from_fresh :
    (runEvents testParse testState
        [cfgWithAuth "tokA", cfgWithAuth "tokA", cfgWithAuth "tokB"]).2 =
      [.accessTokenChange "tokA", .accessTokenChange "tokB"] ∧
    [Effect.accessTokenChange "tokA", Effect.accessTokenChange "tokB"].length ≠ 1 :=
  ⟨rfl, by decide⟩

/-- Claim C5 as amended: with A already held, the sequence A, A, B fires the
callback exactly once, on the A-to-B transition; with no token held it fires
twice (initial capture of A, then A-to-B); and an empty or unchanged
authorization value never fires. -/
theorem token_capture_change_only (A B : String) (hA : A ≠ "") (hB : B ≠ "")
    (hBA : B ≠ A) (parse : String → Option ChatResponse) (v : VisStatus)
    (a : AccState) :
    (runEvents parse { accessToken := A, visStatus := v, acc := a }
        [cfgWithAuth A, cfgWithAuth A, cfgWithAuth B]).2 =
      [.accessTokenChange B] ∧
    (runEvents parse { accessToken := "", visStatus := v, acc := a }
        [cfgWithAuth A, cfgWithAuth A, cfgWithAuth B]).2 =
      [.accessTokenChange A, .accessTokenChange B] ∧
    (runEvents parse { accessToken := A, visStatus := v, acc := a }
        [cfgWithAuth "", cfgWithAuth A]).2 = [] := by
  refine ⟨?_, ?_, ?_⟩ <;>
    simp [runEvents, dispatch_cfgWithAuth, hA, hB, hBA]

/-- Witness for the amended C5 at A = `a`, B = `b`. -/
theorem token_capture_change_only_witness :
    ("a" : String) ≠ "" ∧
    ((runEvents testParse { accessToken := "a", visStatus := .hidden, acc := AccState.init }
        [cfgWithAuth "a", cfgWithAuth "a", cfgWithAuth "b"]).2 =
      [.accessTokenChange "b"] ∧
    (runEvents testParse { accessToken := "", visStatus := .hidden, acc := AccState.init }
        [cfgWithAuth "a", cfgWithAuth "a", cfgWithAuth "b"]).2 =
      [.accessTokenChange "a", .accessTokenChange "b"] ∧
    (runEvents testParse { accessToken := "a", visStatus := .hidden, acc := AccState.init }
        [cfgWithAuth "", cfgWithAuth "a"]).2 = []) :=
  ⟨by decide,
    token_capture_change_only "a" "b" (by decide) (by decide) (by decide)
      testParse .hidden AccState.init⟩

/-- Claim C10: an intercepted config whose headers carry the bearer value
only under the lowercase key `authorization` — as the prompt requests issued
by the injected `sendGptMessage` routine itself do — never fires the
token-change callback and leaves the router state unchanged, because the
handler tests only for the exact key `Authorization`. -/
theorem lowercase_authorization_never_captured
    (parse : String → Option ChatResponse) (st : RouterState) (hs : Headers)
    (tok : String) (_hlow : lookupHeader hs "authorization" = some tok)
    (hup : lookupHeader hs "Authorization" = none) :
    dispatch parse st (.requestInterceptedConfig { headers := some hs }) =
      (st, []) ∧
    dispatch parse st
        (.requestInterceptedConfig { headers := some (sendGptMessageHeaders tok) }) =
      (st, []) := by
  constructor
  · simp [dispatch, hup]
  · have h2 : lookupHeader (sendGptMessageHeaders tok) "Authorization" = none := rfl
    simp [dispatch, h2]

/-- Witness for C10: a config with only `authorization: Bearer t`, and the
injected routine's own header object, both leave the fresh state untouched. -/
theorem lowercase_authorization_never_captured_witness :
    lookupHeader [("authorization", "Bearer t")] "authorization" = some "Bearer t" ∧
    lookupHeader [("authorization", "Bearer t")] "Authorization" = none ∧
    (dispatch testParse testState
        (.requestInterceptedConfig { headers := some [("authorization", "Bearer t")] }) =
      (testState, []) ∧
    dispatch testParse testState
        (.requestInterceptedConfig
          { headers := some (sendGptMessageHeaders "Bearer t") }) =
      (testState, [])) :=
  ⟨rfl, rfl,
    lowercase_authorization_never_captured testParse testState
      [("authorization", "Bearer t")] "Bearer t" rfl rfl⟩

/-- Claim C1 (stream accumulator modelled from spec §4.3): `ingest` appends
the chunk's text to the accumulator and produces its result by parsing the
cumulative buffer — the returned response is exactly `cumulativeParse` of the
whole buffer, never a parse of the chunk alone; after the call the
accumulator holds the cumulative buffer (unless the terminal sentinel
completed the prompt and it was discarded); and a chunk boundary at which no
response was produced is invisible: ingesting `t1` and then `t2` is the same
as ingesting `t1 ++ t2`. -/
theorem ingest_parses_cumulative_buffer (parse : String → Option ChatResponse)
    (st : AccState) (t1 t2 : String) :
    (ingest parse st t1).2 =
      cumulativeParse parse (st.buffer ++ t1) st.emitted st.lastSnapshot ∧
    ((ingest parse st t1).1.buffer = st.buffer ++ t1 ∨
      (ingest parse st t1).1 = AccState.init) ∧
    ((ingest parse st t1).2 = none →
      ingest parse (ingest parse st t1).1 t2 = ingest parse st (t1 ++ t2)) := by
  refine ⟨?_, ?_, ?_⟩
  · cases hc : cumulativeParse parse (st.buffer ++ t1) st.emitted st.lastSnapshot with
    | none => simp [ingest, hc]
    | some r => by_cases hd : r.isDone <;> simp [ingest, hc, hd]
  · cases hc : cumulativeParse parse (st.buffer ++ t1) st.emitted st.lastSnapshot with
    | none => left; simp [ingest, hc]
    | some r =>
      by_cases hd : r.isDone
      · right; simp [ingest, hc, hd]
      · left; simp [ingest, hc, hd]
  · intro h
    rw [ingest_none_state parse st t1 h]
    simp [ingest, String.append_assoc]

/-- Witness for C1: the chunk pair `data: o` / `k\n` — the first call returns
null (incomplete record), the second parses the cumulative buffer
`data: ok\n`, and the split is invisible. -/
theorem ingest_parses_cumulative_buffer_witness :
    (ingest testParse AccState.init "data: o").2 =
      cumulativeParse testParse (AccState.init.buffer ++ "data: o")
        AccState.init.emitted AccState.init.lastSnapshot ∧
    ((ingest testParse AccState.init "data: o").1.buffer =
        AccState.init.buffer ++ "data: o" ∨
      (ingest testParse AccState.init "data: o").1 = AccState.init) ∧
    ((ingest testParse AccState.init "data: o").2 = none →
      ingest testParse (ingest testParse AccState.init "data: o").1 "k\n" =
        ingest testParse AccState.init ("data: o" ++ "k\n")) :=
  ingest_parses_cumulative_buffer testParse AccState.init "data: o" "k\n"

/-- Claim C4, counterexample: a parse failure is not always recovered
locally — the non-streaming `postMessage` path surfaces a malformed stream
record to the caller: a 200 response whose body text yields no parsable
record makes `postMessage` throw `ChatGPTResponseError: Unable to parse
response`. -/
theorem parse_failure_surfaced_by_postMessage :
    postMessage testParse { status := 200, statusText := "OK", bodyText := "" } =
      .error { message := "ChatGPTResponseError: Unable to parse response",
               statusCode := none } := rfl

/-- Claim C4 as amended: malformed bridge messages are recovered locally by
the router — for every raw input that fails to parse, `onMessage` terminates
normally with the state unchanged and no callback invoked — but a malformed
stream record in the non-streaming `postMessage` path is surfaced to the
caller as a thrown `ChatGPTResponseError`. -/
theorem parse_failures_router_local_postMessage_surfaced :
    (∀ (parseRaw : String → Option WebViewEvents)
        (parse : String → Option ChatResponse) (st : RouterState) (raw : String),
        parseRaw raw = none → onMessage parseRaw parse st raw = (st, [])) ∧
    (∀ (parse : String → Option ChatResponse) (res : HttpTextResponse),
        res.status < 400 →
        cumulativeParse parse res.bodyText 0 none = none →
        postMessage parse res =
          .error { message := "ChatGPTResponseError: Unable to parse response",
                   statusCode := none }) := by
  constructor
  · intro parseRaw parse st raw h
    unfold onMessage
    rw [h]
  · intro parse res hlt hparse
    unfold postMessage
    rw [if_neg (by omega), if_neg (by omega), hparse]

/-- Witness for the amended C4: a raw input on which the JSON parse fails is
dropped without effect, and an unparsable 200-response body is surfaced. -/
theorem parse_failures_router_local_postMessage_surfaced_witness :
    onMessage (fun _ => none) testParse testState "not json" = (testState, []) ∧
    postMessage testParse { status := 200, statusText := "OK", bodyText := "x" } =
      .error { message := "ChatGPTResponseError: Unable to parse response",
               statusCode := none } :=
  ⟨parse_failures_router_local_postMessage_surfaced.1 (fun _ => none) testParse
      testState "not json" rfl,
    parse_failures_router_local_postMessage_surfaced.2 testParse
      { status := 200, statusText := "OK", bodyText := "x" } (by decide) rfl⟩

end ChatGpt
